import Mathlib

/-!
Verification of the veo3-character-consistency workflow notebook
(`experiments/veo3-character-consistency/workflow.ipynb`) against its
natural-language specification.

The notebook is a linear orchestration pipeline:

1. validate the reference-image input directory (the "Validate Inputs" cell),
2. call `generate_images_and_select_best(image_files, SCENARIO)` (imported from
   the local module `image_generator`, which is not part of the repository
   snapshot; its behaviour is modelled from the spec where needed),
3. call `generate_video_from_best_image(person_path, outpainted_image_path)`
   (imported from the local module `video_generator`, also absent from the
   snapshot),
4. display the final video under a guard (`if video_path and os.path.exists(...)`).

The filesystem is embedded abstractly: `os.path.isdir`, `os.listdir`,
`os.path.isfile` and `os.path.exists` become fields of a `FileSystem` record,
and `os.path.join` is embedded as `joinPath` following posixpath semantics.
External model providers (Gemini / Imagen / Veo) are embedded as a `Provider`
record of oracles; a run additionally produces a log of the stages entered and
the external calls issued, which makes the ordering and data-flow claims
statable.
-/

namespace Veo3CC

/-- Abstract read-only view of the local filesystem, covering exactly the
`os` primitives the notebook uses: `os.path.isdir`, `os.listdir` (direct
entry names of a directory, no recursion), `os.path.isfile` and
`os.path.exists`. -/
structure FileSystem where
  isDir : String → Bool
  listDir : String → List String
  isFile : String → Bool
  pathExists : String → Bool

/-- `os.path.join a b` for POSIX paths, as the notebook uses it:
if `b` is absolute it wins; otherwise `b` is appended to `a`, inserting a
separator unless `a` is empty or already ends with one. -/
def joinPath (a b : String) : String :=
  if b.data.head? = some '/' then b
  else if a = "" ∨ a.data.getLast? = some '/' then a ++ b
  else a ++ "/" ++ b

/-- The spec's error taxonomy (§7).  The notebook's "Validate Inputs" cell
raises `ValueError`; the spec names that failure `InputValidationError`, and
we keep the notebook's message string as the payload.  The remaining
constructors are the stage failures the spec assigns to the components whose
code lives in the absent `image_generator` / `video_generator` modules. -/
inductive PipelineError where
  | InputValidationError (msg : String)
  | SchemaViolation
  | GenerationEmpty
  | GenerationFailed
  | SelectionAmbiguous
  | OutpaintFailed
  | VideoGenerationFailed
  deriving DecidableEq, Repr

instance {ε α : Type} [DecidableEq ε] [DecidableEq α] :
    DecidableEq (Except ε α) := fun x y =>
  match x, y with
  | .ok a, .ok b =>
    if h : a = b then .isTrue (by rw [h]) else .isFalse (by simp [h])
  | .error a, .error b =>
    if h : a = b then .isTrue (by rw [h]) else .isFalse (by simp [h])
  | .ok _, .error _ => .isFalse (by simp)
  | .error _, .ok _ => .isFalse (by simp)

/-- Message of the first validation failure in the notebook:
`f"The provided image location is not a valid directory: {IMAGE_LOCATION}"`. -/
def notADirectoryMsg (loc : String) : String :=
  "The provided image location is not a valid directory: " ++ loc

/-- Message of the second validation failure in the notebook:
`f"No image files found in the directory: {IMAGE_LOCATION}"`. -/
def noImageFilesMsg (loc : String) : String :=
  "No image files found in the directory: " ++ loc

/-- The "Validate Inputs" cell of the notebook (the Reference Set Loader):

```
if not os.path.isdir(IMAGE_LOCATION):
    raise ValueError(f"The provided image location is not a valid directory: {IMAGE_LOCATION}")
image_files = [os.path.join(IMAGE_LOCATION, f) for f in os.listdir(IMAGE_LOCATION)
               if os.path.isfile(os.path.join(IMAGE_LOCATION, f))]
if not image_files:
    raise ValueError(f"No image files found in the directory: {IMAGE_LOCATION}")
```

Returns the validated `image_files` list, or the raised error. -/
def validateInputs (fs : FileSystem) (loc : String) : Except PipelineError (List String) :=
  if ¬ fs.isDir loc then
    .error (.InputValidationError (notADirectoryMsg loc))
  else
    let image_files :=
      ((fs.listDir loc).filter (fun f => fs.isFile (joinPath loc f))).map
        (fun f => joinPath loc f)
    if image_files.isEmpty then
      .error (.InputValidationError (noImageFilesMsg loc))
    else
      .ok image_files

/-- A generated image: only its pixel dimensions matter to the claims. -/
structure Image where
  width : Nat
  height : Nat
  deriving DecidableEq, Repr

/-- The three black-box provider capabilities of spec §6, as oracles.
`none` answers model the provider erroring / rejecting / returning
unparseable output. -/
structure Provider where
  /-- Image-synthesis capability: reference paths, guidance text, requested
  candidate count ↦ generated images (or provider error). -/
  genImages : List String → String → Nat → Option (List Image)
  /-- Vision-language selection capability: candidates, reference paths ↦ the
  selected identifier as parsed from the model output (`none` when the output
  is unparseable). -/
  selectIdx : List Image → List String → Option Nat
  /-- Outpainting capability: source image, target aspect ratio (w : h) ↦
  outpainted image, or `none` when the ratio request is rejected. -/
  outpaint : Image → Nat → Nat → Option Image
  /-- The per-subject assets directory the generator stores results in
  (the notebook's `person_path`). -/
  personDir : String
  /-- Image-to-video capability: subject path, source image ↦ video file
  path, or `none` on provider error. -/
  genVideo : String → Image → Option String

/-- Modelled from the spec: the Candidate Image Generator (§4.3), part of the
`image_generator` module the notebook imports but which is missing from the
repository snapshot.  "produce exactly N CandidateImages …  Fails with
`GenerationFailed` if the provider returns fewer than N images or an error;
policy: surface the failure, do not silently proceed with a partial set"
(§4.3, §8). -/
def generateCandidates (p : Provider) (refs : List String) (scenario : String)
    (n : Nat) : Except PipelineError (List Image) :=
  match p.genImages refs scenario n with
  | none => .error .GenerationFailed
  | some imgs => if imgs.length = n then .ok imgs else .error .GenerationFailed

/-- Modelled from the spec: the Best-Candidate Selector (§4.4), part of the
missing `image_generator` module.  "returns the index/identifier of exactly
one CandidateImage … Fails with `SelectionAmbiguous` if the selector's output
cannot be mapped back to one of the N candidate identifiers — must not
silently default to index 0" (§4.4, §8, §9). -/
def selectBest (p : Provider) (cands : List Image) (refs : List String) :
    Except PipelineError Nat :=
  match p.selectIdx cands refs with
  | none => .error .SelectionAmbiguous
  | some i => if i < cands.length then .ok i else .error .SelectionAmbiguous

/-- Modelled from the spec: the Outpainting Stage (§4.5), part of the missing
`image_generator` module.  "extends canvas to 16:9 … Fails with
`OutpaintFailed` if the provider rejects the aspect-ratio request" (§4.5). -/
def outpaintStage (p : Provider) (img : Image) : Except PipelineError Image :=
  match p.outpaint img 16 9 with
  | none => .error .OutpaintFailed
  | some out => .ok out

/-- Modelled from the spec: the Video Generator (§4.6), the
`generate_video_from_best_image` function of the missing `video_generator`
module.  "invokes video synthesis and returns a path to a rendered clip.
Fails with `VideoGenerationFailed` on provider error" (§4.6). -/
def generate_video_from_best_image (p : Provider) (personPath : String)
    (img : Image) : Except PipelineError String :=
  match p.genVideo personPath img with
  | none => .error .VideoGenerationFailed
  | some vp => .ok vp

/-- The pipeline stages named by the spec's state machine (§4.6, §5):
validation, then the image work (generation / selection / outpainting), then
video generation. -/
inductive Stage where
  | validation
  | generation
  | selection
  | outpainting
  | videoGeneration
  deriving DecidableEq, Repr

/-- The canonical forward order of the stages (spec §2: "Data flows strictly
forward through steps 1→7"). -/
def stageOrder : List Stage :=
  [.validation, .generation, .selection, .outpainting, .videoGeneration]

/-- An external model call issued by the pipeline, with the arguments it was
given.  Runs are logged as a list of these so the ordering and frame claims
can be stated. -/
inductive Call where
  | imageGen (refs : List String) (scenario : String) (n : Nat)
  | selectCall (cands : List Image) (refs : List String)
  | outpaintCall (img : Image)
  | videoCall (personPath : String) (img : Image)
  deriving DecidableEq, Repr

/-- The reference-path argument of a call, when the call takes one. -/
def Call.refsArg : Call → Option (List String)
  | .imageGen refs _ _ => some refs
  | .selectCall _ refs => some refs
  | .outpaintCall _ => none
  | .videoCall _ _ => none

/-- Result of a pipeline run together with its log: the final outcome, the
stages entered in order, and the external calls issued in order. -/
structure RunResult where
  result : Except PipelineError String
  stages : List Stage
  calls : List Call
  deriving Repr

/-- Modelled from the spec: `generate_images_and_select_best` of the missing
`image_generator` module, which per the spec chains candidate generation
(§4.3), best-candidate selection (§4.4) and outpainting (§4.5), returning
`(person_path, outpainted_image_path, candidate_image_paths)`.  Instrumented
with the stages entered and the external calls issued. -/
def generateAndSelectLogged (p : Provider) (imageFiles : List String)
    (scenario : String) (n : Nat) :
    Except PipelineError (String × Image × List Image) × List Stage × List Call :=
  match generateCandidates p imageFiles scenario n with
  | .error e => (.error e, [.generation], [.imageGen imageFiles scenario n])
  | .ok cands =>
    match selectBest p cands imageFiles with
    | .error e =>
        (.error e, [.generation, .selection],
          [.imageGen imageFiles scenario n, .selectCall cands imageFiles])
    | .ok i =>
      let best := cands.getD i ⟨0, 0⟩
      match outpaintStage p best with
      | .error e =>
          (.error e, [.generation, .selection, .outpainting],
            [.imageGen imageFiles scenario n, .selectCall cands imageFiles,
              .outpaintCall best])
      | .ok out =>
          (.ok (p.personDir, out, cands),
            [.generation, .selection, .outpainting],
            [.imageGen imageFiles scenario n, .selectCall cands imageFiles,
              .outpaintCall best])

/-- The uninstrumented `generate_images_and_select_best`, as the notebook
calls it. -/
def generate_images_and_select_best (p : Provider) (imageFiles : List String)
    (scenario : String) (n : Nat) :
    Except PipelineError (String × Image × List Image) :=
  (generateAndSelectLogged p imageFiles scenario n).1

/-- The notebook's top-level run, in cell order: the "Validate Inputs" cell,
then `generate_images_and_select_best(image_files, SCENARIO)`, then
`generate_video_from_best_image(person_path, outpainted_image_path)`.
A raised error in one cell aborts the run (later cells do not execute). -/
def runPipeline (fs : FileSystem) (p : Provider) (loc scenario : String)
    (n : Nat) : RunResult :=
  match validateInputs fs loc with
  | .error e => ⟨.error e, [.validation], []⟩
  | .ok image_files =>
    match generateAndSelectLogged p image_files scenario n with
    | (.error e, st, cs) => ⟨.error e, .validation :: st, cs⟩
    | (.ok (person_path, outpainted, _cands), st, cs) =>
      match generate_video_from_best_image p person_path outpainted with
      | .error e =>
          ⟨.error e, (.validation :: st) ++ [.videoGeneration],
            cs ++ [.videoCall person_path outpainted]⟩
      | .ok video_path =>
          ⟨.ok video_path, (.validation :: st) ++ [.videoGeneration],
            cs ++ [.videoCall person_path outpainted]⟩

/-- What the "Display Final Video" cell does. -/
inductive DisplayAction where
  | showVideo (path : String)
  | fallbackMessage
  deriving DecidableEq, Repr

/-- The notebook's "Display Final Video" cell:

```
if video_path and os.path.exists(video_path):
    display(Video(video_path, embed=True, width=600))
else:
    print("Could not display the final video.")
```

`video_path` is truthy exactly when it is a non-empty string (modelled with
`Option String` so a falsy `None` result is also representable). -/
def displayFinalVideo (fs : FileSystem) (videoPath : Option String) :
    DisplayAction :=
  match videoPath with
  | none => .fallbackMessage
  | some vp =>
    if (!(vp == "")) && fs.pathExists vp then .showVideo vp
    else .fallbackMessage

/-! ### Concrete fixtures used by the witness theorems -/

/-- A filesystem with an existing reference directory `refs` holding two
regular files. -/
def fsGood : FileSystem :=
  ⟨fun p => p == "refs",
    fun p => if p == "refs" then ["a.png", "b.txt"] else [],
    fun p => p == "refs/a.png" || p == "refs/b.txt",
    fun p => p == "out/video.mp4"⟩

/-- A filesystem where the input path does not exist at all. -/
def fsMissing : FileSystem :=
  ⟨fun _ => false, fun _ => [], fun _ => false, fun _ => false⟩

/-- A filesystem where `refs` exists but contains no regular file (only a
subdirectory entry). -/
def fsEmptyDir : FileSystem :=
  ⟨fun p => p == "refs" || p == "refs/sub",
    fun p => if p == "refs" then ["sub"] else [],
    fun _ => false,
    fun _ => false⟩

/-- A filesystem whose directory listing is nonempty everywhere but where no
path is a directory: used to show the not-a-directory error never consults
the listing. -/
def fsWeird : FileSystem :=
  ⟨fun _ => false, fun _ => ["ghost.png"], fun _ => true, fun _ => false⟩

/-- A filesystem whose reference directory contains only non-image regular
files. -/
def fsTextOnly : FileSystem :=
  ⟨fun p => p == "refs",
    fun p => if p == "refs" then ["notes.txt", "data.csv"] else [],
    fun p => p == "refs/notes.txt" || p == "refs/data.csv",
    fun _ => false⟩

/-- A well-behaved provider: returns exactly the requested number of
candidates, selects index 0, outpaints to the requested aspect ratio, and
renders a video. -/
def pGood : Provider :=
  ⟨fun _ _ n => some (List.replicate n ⟨1024, 1024⟩),
    fun _ _ => some 0,
    fun img w h => some ⟨w * img.height, h * img.height⟩,
    "people/subject",
    fun _ _ => some "out/video.mp4"⟩

/-! ### Run-shape lemmas: `runPipeline` computed on each outcome of the
successive stages. -/

theorem runPipeline_val_error {fs : FileSystem} {loc : String}
    {e : PipelineError} (p : Provider) (scenario : String) (n : Nat)
    (hv : validateInputs fs loc = .error e) :
    runPipeline fs p loc scenario n = ⟨.error e, [.validation], []⟩ := by
  simp [runPipeline, hv]

theorem runPipeline_gen_error {fs : FileSystem} {p : Provider}
    {loc scenario : String} {n : Nat} {files : List String} {e : PipelineError}
    (hv : validateInputs fs loc = .ok files)
    (hg : generateCandidates p files scenario n = .error e) :
    runPipeline fs p loc scenario n =
      ⟨.error e, [.validation, .generation], [.imageGen files scenario n]⟩ := by
  simp [runPipeline, hv, generateAndSelectLogged, hg]

theorem runPipeline_sel_error {fs : FileSystem} {p : Provider}
    {loc scenario : String} {n : Nat} {files : List String}
    {cands : List Image} {e : PipelineError}
    (hv : validateInputs fs loc = .ok files)
    (hg : generateCandidates p files scenario n = .ok cands)
    (hs : selectBest p cands files = .error e) :
    runPipeline fs p loc scenario n =
      ⟨.error e, [.validation, .generation, .selection],
        [.imageGen files scenario n, .selectCall cands files]⟩ := by
  simp [runPipeline, hv, generateAndSelectLogged, hg, hs]

theorem runPipeline_outpaint_error {fs : FileSystem} {p : Provider}
    {loc scenario : String} {n : Nat} {files : List String}
    {cands : List Image} {i : Nat} {e : PipelineError}
    (hv : validateInputs fs loc = .ok files)
    (hg : generateCandidates p files scenario n = .ok cands)
    (hs : selectBest p cands files = .ok i)
    (ho : outpaintStage p (cands.getD i ⟨0, 0⟩) = .error e) :
    runPipeline fs p loc scenario n =
      ⟨.error e, [.validation, .generation, .selection, .outpainting],
        [.imageGen files scenario n, .selectCall cands files,
          .outpaintCall (cands.getD i ⟨0, 0⟩)]⟩ := by
  simp only [List.getD_eq_getElem?_getD] at ho
  simp [runPipeline, hv, generateAndSelectLogged, hg, hs, ho]

theorem runPipeline_video_error {fs : FileSystem} {p : Provider}
    {loc scenario : String} {n : Nat} {files : List String}
    {cands : List Image} {i : Nat} {out : Image}
    (hv : validateInputs fs loc = .ok files)
    (hg : generateCandidates p files scenario n = .ok cands)
    (hs : selectBest p cands files = .ok i)
    (ho : outpaintStage p (cands.getD i ⟨0, 0⟩) = .ok out)
    (hw : p.genVideo p.personDir out = none) :
    runPipeline fs p loc scenario n =
      ⟨.error .VideoGenerationFailed, stageOrder,
        [.imageGen files scenario n, .selectCall cands files,
          .outpaintCall (cands.getD i ⟨0, 0⟩), .videoCall p.personDir out]⟩ := by
  simp only [List.getD_eq_getElem?_getD] at ho
  simp [runPipeline, hv, generateAndSelectLogged, hg, hs, ho,
    generate_video_from_best_image, hw, stageOrder]

theorem runPipeline_success {fs : FileSystem} {p : Provider}
    {loc scenario : String} {n : Nat} {files : List String}
    {cands : List Image} {i : Nat} {out : Image} {vp : String}
    (hv : validateInputs fs loc = .ok files)
    (hg : generateCandidates p files scenario n = .ok cands)
    (hs : selectBest p cands files = .ok i)
    (ho : outpaintStage p (cands.getD i ⟨0, 0⟩) = .ok out)
    (hw : p.genVideo p.personDir out = some vp) :
    runPipeline fs p loc scenario n =
      ⟨.ok vp, stageOrder,
        [.imageGen files scenario n, .selectCall cands files,
          .outpaintCall (cands.getD i ⟨0, 0⟩), .videoCall p.personDir out]⟩ := by
  simp only [List.getD_eq_getElem?_getD] at ho
  simp [runPipeline, hv, generateAndSelectLogged, hg, hs, ho,
    generate_video_from_best_image, hw, stageOrder]

theorem outpaintStage_ok {p : Provider} {img out : Image}
    (h : outpaintStage p img = .ok out) : p.outpaint img 16 9 = some out := by
  unfold outpaintStage at h
  cases ho : p.outpaint img 16 9 <;> rw [ho] at h <;> simp_all

/-- Every initial segment of the canonical stage order contains each stage at
most once. -/
theorem count_take_stageOrder (k : Nat) (s : Stage) :
    (stageOrder.take k).count s ≤ 1 := by
  have hnodup : (stageOrder.take k).Nodup :=
    List.Nodup.sublist (List.take_sublist k stageOrder) (by decide)
  exact List.nodup_iff_count_le_one.mp hnodup s

/-- The regular files directly inside `loc`, as the validation cell computes
them: the direct entries that are regular files, each joined onto `loc`. -/
def regularFilePaths (fs : FileSystem) (loc : String) : List String :=
  ((fs.listDir loc).filter (fun f => fs.isFile (joinPath loc f))).map
    (fun f => joinPath loc f)

theorem validateInputs_eq_regular (fs : FileSystem) (loc : String)
    (h : fs.isDir loc = true) (hne : regularFilePaths fs loc ≠ []) :
    validateInputs fs loc = .ok (regularFilePaths fs loc) := by
  simp only [validateInputs, regularFilePaths, h, Bool.true_eq_false,
    not_true_eq_false, if_false, reduceIte, List.isEmpty_iff]
  simp only [regularFilePaths] at hne
  simp [hne]

/-- The two distinct validation messages never coincide (their fixed parts
have different lengths). -/
theorem noImageFilesMsg_ne_notADirectoryMsg (loc : String) :
    noImageFilesMsg loc ≠ notADirectoryMsg loc := by
  intro h
  have hl := congrArg String.length h
  rw [noImageFilesMsg, notADirectoryMsg, String.length_append,
    String.length_append] at hl
  have h1 : ("No image files found in the directory: ").length = 39 := by decide
  have h2 : ("The provided image location is not a valid directory: ").length = 54 := by
    decide
  omega

/-! ## Claim theorems -/

/-- C1: for an existing directory containing at least one regular file, the
Reference Set Loader returns exactly the regular files present (each as the
directory path joined with the entry name, no recursion, since `listDir`
yields only direct entries); for a non-existent path or a directory with no
regular files it fails with `InputValidationError` and returns no list. -/
theorem C1_reference_set_loader (fs : FileSystem) (loc : String) :
    (fs.isDir loc = true → regularFilePaths fs loc ≠ [] →
      validateInputs fs loc = .ok (regularFilePaths fs loc))
    ∧ (fs.isDir loc = false →
      validateInputs fs loc = .error (.InputValidationError (notADirectoryMsg loc)))
    ∧ (fs.isDir loc = true → regularFilePaths fs loc = [] →
      validateInputs fs loc = .error (.InputValidationError (noImageFilesMsg loc))) := by
  refine ⟨validateInputs_eq_regular fs loc, fun h1 => ?_, fun h1 h2 => ?_⟩
  · simp [validateInputs, h1]
  · simp only [regularFilePaths] at h2
    simp [validateInputs, h1, h2]

/-- Witness for C1: all three branches at concrete filesystems. -/
theorem C1_reference_set_loader_witness :
    validateInputs fsGood "refs" = .ok ["refs/a.png", "refs/b.txt"]
    ∧ validateInputs fsMissing "refs" =
        .error (.InputValidationError (notADirectoryMsg "refs"))
    ∧ validateInputs fsEmptyDir "refs" =
        .error (.InputValidationError (noImageFilesMsg "refs")) := by
  refine ⟨?_, ?_, ?_⟩
  · have h := (C1_reference_set_loader fsGood "refs").1 (by decide) (by decide)
    rw [h]; decide
  · exact (C1_reference_set_loader fsMissing "refs").2.1 (by decide)
  · exact (C1_reference_set_loader fsEmptyDir "refs").2.2 (by decide) (by decide)

/-- C8: the loader filters only on regular-file-ness, never on name,
extension or content: every directory entry that is a regular file appears
(joined onto the directory path) in the returned reference set. -/
theorem C8_no_extension_filtering (fs : FileSystem) (loc : String)
    (l : List String) (h : validateInputs fs loc = .ok l) :
    ∀ f ∈ fs.listDir loc, fs.isFile (joinPath loc f) = true →
      joinPath loc f ∈ l := by
  intro f hf hreg
  unfold validateInputs at h
  by_cases hd : fs.isDir loc
  · simp only [hd, not_true_eq_false, if_false, reduceIte] at h
    split at h
    · exact absurd h (by simp)
    · simp only [Except.ok.injEq] at h
      subst h
      exact List.mem_map_of_mem _ (List.mem_filter.mpr ⟨hf, hreg⟩)
  · simp [hd] at h

/-- Witness for C8: a directory holding only `.txt`/`.csv` files is returned
as the reference set, non-image names included. -/
theorem C8_no_extension_filtering_witness :
    "refs/notes.txt" ∈ (["refs/notes.txt", "refs/data.csv"] : List String) := by
  have hj : joinPath "refs" "notes.txt" = "refs/notes.txt" := by decide
  have h := C8_no_extension_filtering fsTextOnly "refs"
    ["refs/notes.txt", "refs/data.csv"] (by decide) "notes.txt" (by decide) (by decide)
  rwa [hj] at h

/-- C9: the two validation failures are checked in a fixed order and are
mutually exclusive: the not-a-directory error is returned exactly when the
path is not a directory — and in that case the result never depends on the
directory listing — while the no-image-files error can only be returned for
an existing directory. -/
theorem C9_validation_error_order (fs fs2 : FileSystem) (loc : String) :
    (validateInputs fs loc = .error (.InputValidationError (notADirectoryMsg loc)) ↔
      fs.isDir loc = false)
    ∧ (validateInputs fs loc = .error (.InputValidationError (noImageFilesMsg loc)) →
      fs.isDir loc = true)
    ∧ (fs.isDir loc = false → fs2.isDir loc = false →
      validateInputs fs loc = validateInputs fs2 loc) := by
  refine ⟨⟨fun h => ?_, fun h => by simp [validateInputs, h]⟩, fun h => ?_, fun h1 h2 => ?_⟩
  · by_contra hd
    rw [Bool.not_eq_false] at hd
    unfold validateInputs at h
    simp only [hd, not_true_eq_false, if_false, reduceIte] at h
    split at h
    · simp only [Except.error.injEq, PipelineError.InputValidationError.injEq] at h
      exact noImageFilesMsg_ne_notADirectoryMsg loc h
    · exact absurd h (by simp)
  · by_contra hd
    rw [Bool.not_eq_true] at hd
    simp only [validateInputs, hd, Bool.false_eq_true, not_false_eq_true, if_true,
      reduceIte, Except.error.injEq, PipelineError.InputValidationError.injEq] at h
    exact noImageFilesMsg_ne_notADirectoryMsg loc h.symm
  · simp [validateInputs, h1, h2]

/-- Witness for C9: the not-a-directory error at two filesystems that differ
arbitrarily in their listings, and the no-image-files error implying the
directory exists. -/
theorem C9_validation_error_order_witness :
    validateInputs fsMissing "refs" =
      .error (.InputValidationError (notADirectoryMsg "refs"))
    ∧ fsEmptyDir.isDir "refs" = true
    ∧ validateInputs fsMissing "refs" = validateInputs fsWeird "refs" := by
  refine ⟨?_, ?_, ?_⟩
  · exact (C9_validation_error_order fsMissing fsWeird "refs").1.mpr (by decide)
  · exact (C9_validation_error_order fsEmptyDir fsWeird "refs").2.1 (by decide)
  · exact (C9_validation_error_order fsMissing fsWeird "refs").2.2 (by decide) (by decide)

/-- C2: input validation completes first, and on failure the run stops with
the validation error having issued no external model call; conversely, any
run that issued an external call had passed validation. -/
theorem C2_validation_before_external_calls (fs : FileSystem) (p : Provider)
    (loc scenario : String) (n : Nat) :
    (∀ e, validateInputs fs loc = .error e →
      runPipeline fs p loc scenario n = ⟨.error e, [.validation], []⟩)
    ∧ ((runPipeline fs p loc scenario n).calls ≠ [] →
      ∃ files, validateInputs fs loc = .ok files) := by
  constructor
  · intro e he
    exact runPipeline_val_error p scenario n he
  · intro hc
    cases hv : validateInputs fs loc with
    | error e => rw [runPipeline_val_error p scenario n hv] at hc; simp at hc
    | ok files => exact ⟨files, rfl⟩

/-- Witness for C2: a non-existent reference directory aborts the run with
the validation error and an empty call log. -/
theorem C2_validation_before_external_calls_witness :
    runPipeline fsMissing pGood "refs"
        "a man wearing a spiderman outfit in the desert" 4 =
      ⟨.error (.InputValidationError (notADirectoryMsg "refs")),
        [.validation], []⟩ :=
  (C2_validation_before_external_calls fsMissing pGood "refs"
    "a man wearing a spiderman outfit in the desert" 4).1 _ (by decide)

/-- C3: the Candidate Image Generator returns exactly the requested number of
candidates, and any failure of the stage is `GenerationFailed`; it never
yields a set of a different size. -/
theorem C3_exact_candidate_count (p : Provider) (refs : List String)
    (scenario : String) (n : Nat) :
    (∀ imgs, generateCandidates p refs scenario n = .ok imgs → imgs.length = n)
    ∧ (∀ e, generateCandidates p refs scenario n = .error e →
      e = .GenerationFailed) := by
  constructor
  · intro imgs h
    unfold generateCandidates at h
    cases hg : p.genImages refs scenario n <;> simp only [hg] at h
    · exact Except.noConfusion h
    · split at h
      · rename_i hlen
        simp only [Except.ok.injEq] at h
        subst h
        exact hlen
      · exact Except.noConfusion h
  · intro e h
    unfold generateCandidates at h
    cases hg : p.genImages refs scenario n <;> simp only [hg] at h
    · exact (Except.error.inj h).symm
    · split at h
      · exact Except.noConfusion h
      · exact (Except.error.inj h).symm

/-- Witness for C3: requesting 4 candidates from a well-behaved provider
yields a set of size exactly 4. -/
theorem C3_exact_candidate_count_witness :
    (List.replicate 4 (Image.mk 1024 1024)).length = 4 :=
  (C3_exact_candidate_count pGood ["refs/a.png"]
    "a man wearing a spiderman outfit in the desert" 4).1
    (List.replicate 4 ⟨1024, 1024⟩) (by decide)

/-- C4: the Best-Candidate Selector only ever returns an identifier that
indexes into the candidate set it was given, and any failure of the stage is
`SelectionAmbiguous` — never a silent default. -/
theorem C4_selection_in_range (p : Provider) (cands : List Image)
    (refs : List String) :
    (∀ i, selectBest p cands refs = .ok i → i < cands.length)
    ∧ (∀ e, selectBest p cands refs = .error e → e = .SelectionAmbiguous) := by
  constructor
  · intro i h
    unfold selectBest at h
    cases hs : p.selectIdx cands refs <;> simp only [hs] at h
    · exact Except.noConfusion h
    · split at h
      · rename_i hlt
        simp only [Except.ok.injEq] at h
        subst h
        exact hlt
      · exact Except.noConfusion h
  · intro e h
    unfold selectBest at h
    cases hs : p.selectIdx cands refs <;> simp only [hs] at h
    · exact (Except.error.inj h).symm
    · split at h
      · exact Except.noConfusion h
      · exact (Except.error.inj h).symm

/-- Witness for C4: index 0 returned for a singleton candidate set is in
range. -/
theorem C4_selection_in_range_witness :
    0 < ([Image.mk 1024 1024] : List Image).length :=
  (C4_selection_in_range pGood [⟨1024, 1024⟩] ["refs/a.png"]).1 0 (by decide)

/-- Spec §6 contract of the outpainting capability: generated images come
back "at the requested ratio". -/
def HonorsRequestedAspect (p : Provider) : Prop :=
  ∀ img w h out, p.outpaint img w h = some out → h * out.width = w * out.height

/-- C5: under the §6 provider contract, every image the Outpainting Stage
returns has aspect ratio exactly 16:9 (`width / height = 16 / 9`, stated
multiplicatively), whatever the input image's ratio; a rejected aspect-ratio
request fails the stage with `OutpaintFailed`. -/
theorem C5_outpaint_aspect (p : Provider) (img : Image)
    (hp : HonorsRequestedAspect p) :
    (∀ out, outpaintStage p img = .ok out → 9 * out.width = 16 * out.height)
    ∧ (p.outpaint img 16 9 = none →
      outpaintStage p img = .error .OutpaintFailed) := by
  constructor
  · intro out h
    exact hp img 16 9 out (outpaintStage_ok h)
  · intro h
    unfold outpaintStage
    rw [h]

/-- Witness for C5: a 1:1 input image of side 1024 is outpainted to
16384×9216, which is exactly 16:9. -/
theorem C5_outpaint_aspect_witness : 9 * 16384 = 16 * 9216 := by
  have hp : HonorsRequestedAspect pGood := by
    intro img w h out hout
    simp only [pGood, Option.some.injEq] at hout
    subst hout
    ring
  exact (C5_outpaint_aspect pGood ⟨1024, 1024⟩ hp).1 ⟨16384, 9216⟩ (by decide)

/-- C6: every run's stage trace is an initial segment of the canonical
forward order (validation, generation, selection, outpainting, video
generation), so execution flows strictly forward; each stage is entered at
most once (no retry or feedback loop); a successful result means all five
stages ran, and the video-generation call consumes exactly the image the
completed outpainting stage produced. -/
theorem C6_strictly_forward_flow (fs : FileSystem) (p : Provider)
    (loc scenario : String) (n : Nat) :
    (∃ k, k ≤ 5 ∧ (runPipeline fs p loc scenario n).stages = stageOrder.take k
      ∧ (∀ vp, (runPipeline fs p loc scenario n).result = .ok vp → k = 5))
    ∧ (∀ s, ((runPipeline fs p loc scenario n).stages).count s ≤ 1)
    ∧ (∀ pp img, Call.videoCall pp img ∈ (runPipeline fs p loc scenario n).calls →
      ∃ best, Call.outpaintCall best ∈ (runPipeline fs p loc scenario n).calls
        ∧ p.outpaint best 16 9 = some img) := by
  rcases hv : validateInputs fs loc with e | files
  · rw [runPipeline_val_error p scenario n hv]
    refine ⟨⟨1, by omega, rfl, fun vp hvp => Except.noConfusion hvp⟩,
      fun s => count_take_stageOrder 1 s, fun pp img h => ?_⟩
    simp at h
  · rcases hg : generateCandidates p files scenario n with e | cands
    · rw [runPipeline_gen_error hv hg]
      refine ⟨⟨2, by omega, rfl, fun vp hvp => Except.noConfusion hvp⟩,
        fun s => count_take_stageOrder 2 s, fun pp img h => ?_⟩
      simp at h
    · rcases hs : selectBest p cands files with e | i
      · rw [runPipeline_sel_error hv hg hs]
        refine ⟨⟨3, by omega, rfl, fun vp hvp => Except.noConfusion hvp⟩,
          fun s => count_take_stageOrder 3 s, fun pp img h => ?_⟩
        simp at h
      · rcases ho : outpaintStage p (cands.getD i ⟨0, 0⟩) with e | out
        · rw [runPipeline_outpaint_error hv hg hs ho]
          refine ⟨⟨4, by omega, rfl, fun vp hvp => Except.noConfusion hvp⟩,
            fun s => count_take_stageOrder 4 s, fun pp img h => ?_⟩
          simp at h
        · rcases hw : p.genVideo p.personDir out with _ | vp
          · rw [runPipeline_video_error hv hg hs ho hw]
            refine ⟨⟨5, by omega, rfl, fun vp2 hvp => Except.noConfusion hvp⟩,
              fun s => count_take_stageOrder 5 s, fun pp img h => ?_⟩
            simp only [List.mem_cons, List.not_mem_nil, or_false] at h
            rcases h with h | h | h | h
            · exact Call.noConfusion h
            · exact Call.noConfusion h
            · exact Call.noConfusion h
            · obtain ⟨h1, h2⟩ := Call.videoCall.inj h
              refine ⟨cands.getD i ⟨0, 0⟩, by simp, ?_⟩
              rw [h2]
              exact outpaintStage_ok ho
          · rw [runPipeline_success hv hg hs ho hw]
            refine ⟨⟨5, by omega, rfl, fun vp2 hvp => rfl⟩,
              fun s => count_take_stageOrder 5 s, fun pp img h => ?_⟩
            simp only [List.mem_cons, List.not_mem_nil, or_false] at h
            rcases h with h | h | h | h
            · exact Call.noConfusion h
            · exact Call.noConfusion h
            · exact Call.noConfusion h
            · obtain ⟨h1, h2⟩ := Call.videoCall.inj h
              refine ⟨cands.getD i ⟨0, 0⟩, by simp, ?_⟩
              rw [h2]
              exact outpaintStage_ok ho

/-- Witness for C6: the good run enters all five stages, in order, once
each. -/
theorem C6_strictly_forward_flow_witness :
    (runPipeline fsGood pGood "refs"
      "a man wearing a spiderman outfit in the desert" 4).stages = stageOrder := by
  obtain ⟨⟨k, hk5, hstages, hfull⟩, -, -⟩ := C6_strictly_forward_flow fsGood pGood
    "refs" "a man wearing a spiderman outfit in the desert" 4
  have hres : (runPipeline fsGood pGood "refs"
      "a man wearing a spiderman outfit in the desert" 4).result =
      .ok "out/video.mp4" := by decide
  rw [hstages, hfull "out/video.mp4" hres]
  rfl

/-- C7: the validated reference list is passed unchanged to every external
call that takes the reference set (candidate generation and selection): the
list an external call receives is exactly the list validation produced. -/
theorem C7_reference_list_unchanged (fs : FileSystem) (p : Provider)
    (loc scenario : String) (n : Nat) (files : List String)
    (hv : validateInputs fs loc = .ok files) :
    ∀ c ∈ (runPipeline fs p loc scenario n).calls, ∀ r,
      c.refsArg = some r → r = files := by
  intro c hc r hr
  rcases hg : generateCandidates p files scenario n with e | cands
  · rw [runPipeline_gen_error hv hg] at hc
    obtain rfl := List.mem_singleton.mp hc
    simp only [Call.refsArg, Option.some.injEq] at hr
    exact hr.symm
  · rcases hs : selectBest p cands files with e | i
    · rw [runPipeline_sel_error hv hg hs] at hc
      simp only [List.mem_cons, List.not_mem_nil, or_false] at hc
      rcases hc with rfl | rfl <;>
        · simp only [Call.refsArg, Option.some.injEq] at hr
          exact hr.symm
    · rcases ho : outpaintStage p (cands.getD i ⟨0, 0⟩) with e | out
      · rw [runPipeline_outpaint_error hv hg hs ho] at hc
        simp only [List.mem_cons, List.not_mem_nil, or_false] at hc
        rcases hc with rfl | rfl | rfl
        · simp only [Call.refsArg, Option.some.injEq] at hr
          exact hr.symm
        · simp only [Call.refsArg, Option.some.injEq] at hr
          exact hr.symm
        · exact Option.noConfusion hr
      · rcases hw : p.genVideo p.personDir out with _ | vp
        · rw [runPipeline_video_error hv hg hs ho hw] at hc
          simp only [List.mem_cons, List.not_mem_nil, or_false] at hc
          rcases hc with rfl | rfl | rfl | rfl
          · simp only [Call.refsArg, Option.some.injEq] at hr
            exact hr.symm
          · simp only [Call.refsArg, Option.some.injEq] at hr
            exact hr.symm
          · exact Option.noConfusion hr
          · exact Option.noConfusion hr
        · rw [runPipeline_success hv hg hs ho hw] at hc
          simp only [List.mem_cons, List.not_mem_nil, or_false] at hc
          rcases hc with rfl | rfl | rfl | rfl
          · simp only [Call.refsArg, Option.some.injEq] at hr
            exact hr.symm
          · simp only [Call.refsArg, Option.some.injEq] at hr
            exact hr.symm
          · exact Option.noConfusion hr
          · exact Option.noConfusion hr

/-- Witness for C7: the generation call of the good run carries exactly the
validated reference list. -/
theorem C7_reference_list_unchanged_witness :
    (["refs/a.png", "refs/b.txt"] : List String) = ["refs/a.png", "refs/b.txt"] :=
  C7_reference_list_unchanged fsGood pGood "refs"
    "a man wearing a spiderman outfit in the desert" 4
    ["refs/a.png", "refs/b.txt"] (by decide)
    (Call.imageGen ["refs/a.png", "refs/b.txt"]
      "a man wearing a spiderman outfit in the desert" 4)
    (by decide) ["refs/a.png", "refs/b.txt"] rfl

/-- C10: the display step shows the video only when the path is a non-empty
string naming an existing file, and otherwise emits the fallback message —
it is a total function, so it never raises, and it never touches a
non-existent file. -/
theorem C10_display_guard (fs : FileSystem) (vp : Option String) :
    (∀ s, displayFinalVideo fs vp = .showVideo s →
      vp = some s ∧ s ≠ "" ∧ fs.pathExists s = true)
    ∧ ((∀ s, vp = some s → s = "" ∨ fs.pathExists s = false) →
      displayFinalVideo fs vp = .fallbackMessage) := by
  constructor
  · intro s h
    cases vp with
    | none => exact DisplayAction.noConfusion h
    | some v =>
      have h2 : displayFinalVideo fs (some v) =
          if (!(v == "")) && fs.pathExists v then .showVideo v
          else .fallbackMessage := rfl
      rw [h2] at h
      split at h
      · rename_i hguard
        obtain rfl := DisplayAction.showVideo.inj h
        rw [Bool.and_eq_true] at hguard
        refine ⟨rfl, ?_, hguard.2⟩
        have hne : (v == "") = false := by
          rcases hb : (v == "") with _ | _
          · rfl
          · rw [hb] at hguard
            exact absurd hguard.1 (by decide)
        intro hcon
        rw [hcon] at hne
        simp at hne
      · exact DisplayAction.noConfusion h
  · intro hg
    cases vp with
    | none => rfl
    | some v =>
      have h2 : displayFinalVideo fs (some v) =
          if (!(v == "")) && fs.pathExists v then .showVideo v
          else .fallbackMessage := rfl
      rw [h2]
      rcases hg v rfl with hemp | hex
      · subst hemp
        rfl
      · simp [hex]

/-- Witness for C10: the good run's video path is shown only because it is
non-empty and exists on the fixture filesystem. -/
theorem C10_display_guard_witness :
    some "out/video.mp4" = some "out/video.mp4" ∧ ("out/video.mp4" : String) ≠ ""
      ∧ fsGood.pathExists "out/video.mp4" = true :=
  (C10_display_guard fsGood (some "out/video.mp4")).1 "out/video.mp4" (by decide)

end Veo3CC
